import Mathlib

/-!
Shallow embedding of the jira-mcp gateway: the authenticated REST client
(`jira-client.ts`), the tool dispatchers (`server.ts`) and the startup
configuration (`config.ts`).  Upstream HTTP is modelled as an oracle
`Upstream : Request → FetchOutcome`; every operation is a pure function
returning its result together with the trace of HTTP requests it issued and
the log entries it appended.
-/

namespace Jira

/-- JSON values as transmitted in request/response bodies. -/
inductive JVal where
  | str : String → JVal
  | num : Int → JVal
  | bool : Bool → JVal
  | obj : List (String × JVal) → JVal
  | arr : List JVal → JVal

/-- One outbound HTTP request as issued by `makeRequest`: the endpoint path
relative to the REST root, the HTTP method, and the JSON body when present. -/
structure Request where
  endpoint : String
  method : String
  body : Option JVal

/-- What the runtime `fetch` produces for a request: either a network-level
failure (the thrown cause's message), or an HTTP reply carrying status,
status text, the body read as text, and the outcome of parsing the body as
JSON (`.error` is the message of the parse exception `response.json()` would
throw). -/
inductive FetchOutcome where
  | netFail : String → FetchOutcome
  | reply : Nat → String → String → Except String JVal → FetchOutcome

/-- The upstream world: what each request would receive. -/
def Upstream : Type := Request → FetchOutcome

/-- Log levels of `logger.ts`. -/
inductive LogLevel where
  | debug | info | warning | error
deriving DecidableEq

/-- String form of a log level (the enum values in `types.ts`). -/
def LogLevel.toStr : LogLevel → String
  | .debug => "debug"
  | .info => "info"
  | .warning => "warning"
  | .error => "error"

/-- `levels.indexOf` in `Logger.shouldLog`: index of a level string in
[debug, info, warning, error], `-1` when the string is none of them. -/
def levelIndex (s : String) : Int :=
  if s = "debug" then 0
  else if s = "info" then 1
  else if s = "warning" then 2
  else if s = "error" then 3
  else -1

/-- `Logger.shouldLog`: a message is stored iff its level's index is at least
the configured level's index. -/
def shouldLog (dl : String) (lv : LogLevel) : Bool :=
  levelIndex lv.toStr ≥ levelIndex dl

/-- Appending a log entry through the level gate (`createLogEntry` guarded by
`shouldLog`).  `dl` is the logger's configured debug level string. -/
def logAppend (dl : String) (logs : List (LogLevel × String)) (lv : LogLevel)
    (msg : String) : List (LogLevel × String) :=
  if shouldLog dl lv then logs ++ [(lv, msg)] else logs

/-- `response.ok` : the HTTP status lies in the 200–299 range. -/
def statusOk (status : Nat) : Bool :=
  200 ≤ status && status ≤ 299

/-- Result of one client operation: the value or the thrown error's message,
plus the HTTP requests issued and the log entries appended, in order. -/
structure CallResult (α : Type) where
  result : Except String α
  requests : List Request
  logs : List (LogLevel × String)

mutual

/-- JSON.stringify with two-space indentation (the `null, 2` form used by the
dispatchers); `ind` is the current indentation width. -/
def jsonStringify (ind : Nat) : JVal → String
  | .str s => quoteJString s
  | .num n => toString n
  | .bool b => if b then "true" else "false"
  | .obj [] => "\x7b\x7d"
  | .obj fs => "\x7b\n" ++ stringifyPairs (ind + 2) fs ++ "\n"
      ++ String.mk (List.replicate ind (Char.ofNat 32)) ++ "\x7d"
  | .arr [] => "[]"
  | .arr xs => "[\n" ++ stringifyItems (ind + 2) xs ++ "\n"
      ++ String.mk (List.replicate ind (Char.ofNat 32)) ++ "]"

def stringifyPairs (ind : Nat) : List (String × JVal) → String
  | [] => ""
  | [(k, v)] => String.mk (List.replicate ind (Char.ofNat 32))
      ++ quoteJString k ++ ": " ++ jsonStringify ind v
  | (k, v) :: rest => String.mk (List.replicate ind (Char.ofNat 32))
      ++ quoteJString k ++ ": " ++ jsonStringify ind v ++ ",\n"
      ++ stringifyPairs ind rest

def stringifyItems (ind : Nat) : List JVal → String
  | [] => ""
  | [v] => String.mk (List.replicate ind (Char.ofNat 32)) ++ jsonStringify ind v
  | v :: rest => String.mk (List.replicate ind (Char.ofNat 32))
      ++ jsonStringify ind v ++ ",\n" ++ stringifyItems ind rest

/-- JSON string quoting used by `jsonStringify`. -/
def quoteJString (s : String) : String :=
  "\"" ++ String.join (s.toList.map escapeJChar) ++ "\""

def escapeJChar (c : Char) : String :=
  if c = Char.ofNat 34 then "\\\""
  else if c = Char.ofNat 92 then "\\\\"
  else if c = Char.ofNat 10 then "\\n"
  else if c = Char.ofNat 13 then "\\r"
  else if c = Char.ofNat 9 then "\\t"
  else if c.toNat < 32 then "\\u00"
      ++ String.mk [hexUpper (c.toNat / 16), hexUpper (c.toNat % 16)]
  else String.singleton c

def hexUpper (n : Nat) : Char :=
  if n < 10 then Char.ofNat (48 + n) else Char.ofNat (55 + n)

end

mutual

/-- JavaScript string coercion of a value, as in template interpolation. -/
def jsToString : JVal → String
  | .str s => s
  | .num n => toString n
  | .bool b => if b then "true" else "false"
  | .obj _ => "[object Object]"
  | .arr xs => jsJoin xs

def jsJoin : List JVal → String
  | [] => ""
  | [v] => jsToString v
  | v :: rest => jsToString v ++ "," ++ jsJoin rest

end

/-- Template interpolation of a possibly-undefined value (`${result.key}`). -/
def jsTemplate : Option JVal → String
  | none => "undefined"
  | some v => jsToString v

def lookupField : List (String × JVal) → String → Option JVal
  | [], _ => none
  | (k1, v1) :: rest, k => if k1 = k then some v1 else lookupField rest k

/-- JavaScript property read on a defined value: a key of an object, and
`undefined` (`none`) for a missing key or a non-object base. -/
def jsGet (v : JVal) (k : String) : Option JVal :=
  match v with
  | .obj fs => lookupField fs k
  | _ => none

/-- JavaScript truthiness of a value. -/
def JVal.truthy : JVal → Bool
  | .str s => s ≠ ""
  | .num n => n ≠ 0
  | .bool b => b
  | .obj _ => true
  | .arr _ => true

/-- `x || defaultString`: the value itself when truthy, else the default. -/
def jsOr (v : Option JVal) (d : String) : JVal :=
  match v with
  | some x => if x.truthy then x else .str d
  | none => .str d

/-- Truthiness of an optional string argument (`if (description)` on a
parameter that may be `undefined`). -/
def optTruthy : Option String → Bool
  | some s => s ≠ ""
  | none => false

def hexUpperDigit (n : Nat) : Char :=
  if n < 10 then Char.ofNat (48 + n) else Char.ofNat (55 + n)

/-- Characters `encodeURIComponent` leaves unescaped: ASCII alphanumerics and
`- . _ ~ ! * ' ( )`. -/
def isURIUnreserved (c : Char) : Bool :=
  c.isAlpha || c.isDigit || c = Char.ofNat 45 || c = Char.ofNat 46
    || c = Char.ofNat 95 || c = Char.ofNat 126 || c = Char.ofNat 33
    || c = Char.ofNat 42 || c = Char.ofNat 39 || c = Char.ofNat 40
    || c = Char.ofNat 41

/-- UTF-8 encoding of one code point, as byte values. -/
def utf8Bytes (c : Char) : List Nat :=
  let n := c.toNat
  if n < 128 then [n]
  else if n < 2048 then [192 + n / 64, 128 + n % 64]
  else if n < 65536 then [224 + n / 4096, 128 + (n / 64) % 64, 128 + n % 64]
  else [240 + n / 262144, 128 + (n / 4096) % 64, 128 + (n / 64) % 64, 128 + n % 64]

def pctEncodeByte (b : Nat) : String :=
  String.mk [Char.ofNat 37, hexUpperDigit (b / 16), hexUpperDigit (b % 16)]

/-- The runtime's `encodeURIComponent`: unreserved characters pass through,
everything else is percent-encoded byte-wise from its UTF-8 encoding. -/
def encodeURIComponent (s : String) : String :=
  String.join (s.toList.map fun c =>
    if isURIUnreserved c then String.singleton c
    else String.join ((utf8Bytes c).map pctEncodeByte))

/-- `JiraClient.makeRequest` (jira-client.ts lines 13–46): one `fetch`; a
non-ok status logs and throws `JIRA API error: ...`, which the surrounding
catch rewraps as `JIRA API request failed: ...`; any failure thrown by the
fetch or the JSON parse is wrapped the same way.  The method is `GET` when
the caller passed no options. -/
def makeRequest (world : Upstream) (dl : String) (endpoint method : String)
    (body : Option JVal) : CallResult JVal :=
  let req : Request := ⟨endpoint, method, body⟩
  let logs0 := logAppend dl [] .debug "Making JIRA API request"
  match world req with
  | .netFail cause =>
      let msg := "JIRA API request failed: " ++ cause
      ⟨.error msg, [req], logAppend dl logs0 .error msg⟩
  | .reply status statusText bodyText parsed =>
      if statusOk status then
        match parsed with
        | .ok data => ⟨.ok data, [req], logAppend dl logs0 .debug "JIRA API response received"⟩
        | .error parseMsg =>
            let msg := "JIRA API request failed: " ++ parseMsg
            ⟨.error msg, [req], logAppend dl logs0 .error msg⟩
      else
        let upstreamMsg := "JIRA API error: " ++ toString status ++ " "
            ++ statusText ++ " - " ++ bodyText
        let msg := "JIRA API request failed: " ++ upstreamMsg
        ⟨.error msg, [req],
          logAppend dl (logAppend dl logs0 .error upstreamMsg) .error msg⟩

/-- The six-field projection produced by the shaping expressions shared by
`getIssue` (jira-client.ts 55–62) and the search dispatcher (server.ts
80–87).  `key`, `summary` and `status` are plain property reads, so they are
`undefined` (`none`) when missing; the other three go through `|| sentinel`
and are always defined. -/
structure ShapedSummary where
  key : Option JVal
  summary : Option JVal
  status : Option JVal
  assignee : JVal
  priority : JVal
  reporter : JVal

/-- V8's message for reading a property of `undefined`. -/
def cannotReadMsg (prop : String) : String :=
  "TypeError: Cannot read properties of undefined (reading '" ++ prop ++ "')"

/-- The shared shaping expressions: `issue.key`, `issue.fields.summary`,
`issue.fields.status.name`, and the three `?.` / `||` chains.  Reading
`fields` of an undefined base, or `name` of an undefined `status`, throws. -/
def projectIssue (issue : JVal) : Except String ShapedSummary :=
  match jsGet issue "fields" with
  | none => .error (cannotReadMsg "summary")
  | some flds =>
      match jsGet flds "status" with
      | none => .error (cannotReadMsg "name")
      | some st =>
          .ok { key := jsGet issue "key"
                summary := jsGet flds "summary"
                status := jsGet st "name"
                assignee := jsOr ((jsGet flds "assignee").bind (jsGet · "displayName")) "Unassigned"
                priority := jsOr ((jsGet flds "priority").bind (jsGet · "name")) "None"
                reporter := jsOr ((jsGet flds "reporter").bind (jsGet · "displayName")) "Unknown" }

/-- `JiraClient.getIssue` (jira-client.ts 48–67).  The success `info` log at
line 52 reads `issue.fields.summary` in its details, so an undefined
`fields` throws before that log; the projection itself can still throw on an
undefined `status`.  The catch logs `Failed to fetch JIRA issue` and
rethrows the same error. -/
def getIssue (world : Upstream) (dl : String) (issueKey : String) :
    CallResult ShapedSummary :=
  let logs0 := logAppend dl [] .info "Fetching JIRA issue"
  let mr := makeRequest world dl ("issue/" ++ issueKey) "GET" none
  match mr.result with
  | .error msg =>
      ⟨.error msg, mr.requests,
        logAppend dl (logs0 ++ mr.logs) .error "Failed to fetch JIRA issue"⟩
  | .ok data =>
      match jsGet data "fields" with
      | none =>
          ⟨.error (cannotReadMsg "summary"), mr.requests,
            logAppend dl (logs0 ++ mr.logs) .error "Failed to fetch JIRA issue"⟩
      | some _ =>
          let logs1 := logAppend dl (logs0 ++ mr.logs) .info "Successfully fetched JIRA issue"
          match projectIssue data with
          | .ok s => ⟨.ok s, mr.requests, logs1⟩
          | .error msg =>
              ⟨.error msg, mr.requests,
                logAppend dl logs1 .error "Failed to fetch JIRA issue"⟩

/-- The search URL built in `JiraClient.searchIssues` (jira-client.ts 72). -/
def searchEndpoint (jql : String) (startAt maxResults : Int) : String :=
  "search?jql=" ++ encodeURIComponent jql ++ "&startAt=" ++ toString startAt
    ++ "&maxResults=" ++ toString maxResults

/-- `JiraClient.searchIssues` (jira-client.ts 69–79).  The success `info` log
reads `result.issues.length` in its details, so an undefined `issues`
throws inside the try and is logged and rethrown by the catch. -/
def searchIssues (world : Upstream) (dl : String) (jql : String)
    (startAt maxResults : Int) : CallResult JVal :=
  let logs0 := logAppend dl [] .info "Searching JIRA issues"
  let mr := makeRequest world dl (searchEndpoint jql startAt maxResults) "GET" none
  match mr.result with
  | .error msg =>
      ⟨.error msg, mr.requests,
        logAppend dl (logs0 ++ mr.logs) .error "Failed to search JIRA issues"⟩
  | .ok result =>
      match jsGet result "issues" with
      | none =>
          ⟨.error (cannotReadMsg "length"), mr.requests,
            logAppend dl (logs0 ++ mr.logs) .error "Failed to search JIRA issues"⟩
      | some _ =>
          ⟨.ok result, mr.requests,
            logAppend dl (logs0 ++ mr.logs) .info "Successfully searched JIRA issues"⟩

/-- The rich-text document wrapper built for descriptions and comments. -/
def richTextBody (text : String) : JVal :=
  .obj [("type", .str "doc"), ("version", .num 1),
        ("content", .arr [ .obj [("type", .str "paragraph"),
          ("content", .arr [ .obj [("type", .str "text"), ("text", .str text)] ])] ])]

/-- The fields object built by `JiraClient.createIssue` (jira-client.ts
84–114): project/issuetype/summary always, then the three optionals each
under an `if (value)` truthiness guard. -/
def createFields (projectKey issueType summary : String)
    (description assignee priority : Option String) : List (String × JVal) :=
  [("project", .obj [("key", .str projectKey)]),
   ("issuetype", .obj [("name", .str issueType)]),
   ("summary", .str summary)]
  ++ (if optTruthy description then [("description", richTextBody (description.getD ""))] else [])
  ++ (if optTruthy assignee then [("assignee", .obj [("name", .str (assignee.getD ""))])] else [])
  ++ (if optTruthy priority then [("priority", .obj [("name", .str (priority.getD ""))])] else [])

/-- `JiraClient.createIssue` (jira-client.ts 81–127): POST the fields to
`issue`, then on success fetch the created issue via `getIssue` on
`result.key` and return that summary.  A failure in either step is logged as
`Failed to create JIRA issue` and rethrown. -/
def createIssue (world : Upstream) (dl : String)
    (projectKey issueType summary : String)
    (description assignee priority : Option String) : CallResult ShapedSummary :=
  let logs0 := logAppend dl [] .info "Creating JIRA issue"
  let body : JVal := .obj [("fields", .obj (createFields projectKey issueType summary description assignee priority))]
  let mr := makeRequest world dl "issue" "POST" (some body)
  match mr.result with
  | .error msg =>
      ⟨.error msg, mr.requests,
        logAppend dl (logs0 ++ mr.logs) .error "Failed to create JIRA issue"⟩
  | .ok result =>
      let logs1 := logAppend dl (logs0 ++ mr.logs) .info "Successfully created JIRA issue"
      let follow := getIssue world dl (jsTemplate (jsGet result "key"))
      match follow.result with
      | .ok s => ⟨.ok s, mr.requests ++ follow.requests, logs1 ++ follow.logs⟩
      | .error msg =>
          ⟨.error msg, mr.requests ++ follow.requests,
            logAppend dl (logs1 ++ follow.logs) .error "Failed to create JIRA issue"⟩

/-- The per-field rewrite in `JiraClient.updateIssue` (jira-client.ts
132–144): summary/description pass through, assignee/priority are wrapped as
`name` objects, anything else passes through. -/
def transformUpdateFields (fields : List (String × JVal)) : List (String × JVal) :=
  fields.map fun kv =>
    if kv.1 = "summary" ∨ kv.1 = "description" then kv
    else if kv.1 = "assignee" then (kv.1, .obj [("name", kv.2)])
    else if kv.1 = "priority" then (kv.1, .obj [("name", kv.2)])
    else kv

/-- `JiraClient.updateIssue` (jira-client.ts 129–157): PUT the transformed
fields to `issue/{key}`, then on success refetch the issue.  A failure in
either step is logged as `Failed to update JIRA issue` and rethrown. -/
def updateIssue (world : Upstream) (dl : String) (issueKey : String)
    (fields : List (String × JVal)) : CallResult ShapedSummary :=
  let logs0 := logAppend dl [] .info "Updating JIRA issue"
  let body : JVal := .obj [("fields", .obj (transformUpdateFields fields))]
  let mr := makeRequest world dl ("issue/" ++ issueKey) "PUT" (some body)
  match mr.result with
  | .error msg =>
      ⟨.error msg, mr.requests,
        logAppend dl (logs0 ++ mr.logs) .error "Failed to update JIRA issue"⟩
  | .ok _ =>
      let logs1 := logAppend dl (logs0 ++ mr.logs) .info "Successfully updated JIRA issue"
      let follow := getIssue world dl issueKey
      match follow.result with
      | .ok s => ⟨.ok s, mr.requests ++ follow.requests, logs1 ++ follow.logs⟩
      | .error msg =>
          ⟨.error msg, mr.requests ++ follow.requests,
            logAppend dl (logs1 ++ follow.logs) .error "Failed to update JIRA issue"⟩

/-- The transition POST body (jira-client.ts 162–190): always
`transition.id`, and under an `if (comment)` truthiness guard the
`update.comment[0].add.body` rich-text wrapper. -/
def transitionBody (transitionId : String) (comment : Option String) : JVal :=
  .obj ([("transition", .obj [("id", .str transitionId)])]
    ++ (if optTruthy comment then
          [("update", .obj [("comment", .arr [ .obj [("add",
            .obj [("body", richTextBody (comment.getD ""))])] ])])]
        else []))

/-- `JiraClient.transitionIssue` (jira-client.ts 159–202): POST the body to
`issue/{key}/transitions`; resolves with no value on success. -/
def transitionIssue (world : Upstream) (dl : String)
    (issueKey transitionId : String) (comment : Option String) : CallResult Unit :=
  let logs0 := logAppend dl [] .info "Transitioning JIRA issue"
  let mr := makeRequest world dl ("issue/" ++ issueKey ++ "/transitions") "POST"
      (some (transitionBody transitionId comment))
  match mr.result with
  | .error msg =>
      ⟨.error msg, mr.requests,
        logAppend dl (logs0 ++ mr.logs) .error "Failed to transition JIRA issue"⟩
  | .ok _ =>
      ⟨.ok (), mr.requests,
        logAppend dl (logs0 ++ mr.logs) .info "Successfully transitioned JIRA issue"⟩

/-- `JiraClient.addComment` (jira-client.ts 204–235): POST a rich-text body
to `issue/{key}/comment`. -/
def addComment (world : Upstream) (dl : String) (issueKey comment : String) :
    CallResult Unit :=
  let logs0 := logAppend dl [] .info "Adding comment to JIRA issue"
  let body : JVal := .obj [("body", richTextBody comment)]
  let mr := makeRequest world dl ("issue/" ++ issueKey ++ "/comment") "POST" (some body)
  match mr.result with
  | .error msg =>
      ⟨.error msg, mr.requests,
        logAppend dl (logs0 ++ mr.logs) .error "Failed to add comment to JIRA issue"⟩
  | .ok _ =>
      ⟨.ok (), mr.requests,
        logAppend dl (logs0 ++ mr.logs) .info "Successfully added comment to JIRA issue"⟩

/-- What a tool's `execute` hands back to the transport: the returned text,
plus the traces accumulated while running. -/
structure ToolResult where
  text : String
  requests : List Request
  logs : List (LogLevel × String)

/-- A JSON.stringify pair list for a shaped summary: `undefined` fields are
dropped, the defaulted fields are always present. -/
def summaryPairs (s : ShapedSummary) : List (String × JVal) :=
  (match s.key with | some v => [("key", v)] | none => [])
  ++ (match s.summary with | some v => [("summary", v)] | none => [])
  ++ (match s.status with | some v => [("status", v)] | none => [])
  ++ [("assignee", s.assignee), ("priority", s.priority), ("reporter", s.reporter)]

/-- `JSON.stringify(issue, null, 2)` of a shaped summary. -/
def stringifySummary (s : ShapedSummary) : String :=
  jsonStringify 0 (.obj (summaryPairs s))

/-- The `jira_get_issue` tool handler (server.ts 51–60). -/
def jira_get_issue (world : Upstream) (dl : String) (issueKey : String) : ToolResult :=
  let c := getIssue world dl issueKey
  match c.result with
  | .ok issue => ⟨stringifySummary issue, c.requests, c.logs⟩
  | .error msg =>
      ⟨"Error: " ++ msg, c.requests,
        logAppend dl c.logs .error ("Error in jira_get_issue: " ++ msg)⟩

/-- The object built by the `jira_search` handler (server.ts 76–88). -/
structure SearchShaped where
  total : Option JVal
  startAt : Option JVal
  maxResults : Option JVal
  issues : List ShapedSummary

/-- `issues.map(issue => ({...}))` with the shared six-field projection:
elements are projected left to right, the first thrown error aborts the map. -/
def mapProject : List JVal → Except String (List ShapedSummary)
  | [] => .ok []
  | x :: rest =>
      match projectIssue x with
      | .error msg => .error msg
      | .ok s =>
          match mapProject rest with
          | .error msg => .error msg
          | .ok ss => .ok (s :: ss)

/-- The summary object construction in the `jira_search` handler:
`result.total` / `result.startAt` / `result.maxResults` are plain property
reads, and `result.issues.map(...)` projects each issue with the shared
six-field expressions, throwing if `issues` is undefined or not an array. -/
def shapeSearch (result : JVal) : Except String SearchShaped :=
  match jsGet result "issues" with
  | none => .error (cannotReadMsg "map")
  | some (.arr xs) =>
      match mapProject xs with
      | .ok shaped =>
          .ok { total := jsGet result "total", startAt := jsGet result "startAt"
                maxResults := jsGet result "maxResults", issues := shaped }
      | .error msg => .error msg
  | some _ => .error "TypeError: result.issues.map is not a function"

def searchPairs (s : SearchShaped) : List (String × JVal) :=
  (match s.total with | some v => [("total", v)] | none => [])
  ++ (match s.startAt with | some v => [("startAt", v)] | none => [])
  ++ (match s.maxResults with | some v => [("maxResults", v)] | none => [])
  ++ [("issues", .arr (s.issues.map (fun i => .obj (summaryPairs i))))]

def stringifySearch (s : SearchShaped) : String :=
  jsonStringify 0 (.obj (searchPairs s))

/-- The `jira_search` tool handler (server.ts 64–95).  The zod parameter
schema applies `default(0)` / `default(50)` to omitted `startAt` /
`maxResults` before `execute` runs. -/
def jira_search (world : Upstream) (dl : String) (jql : String)
    (startAt maxResults : Option Int) : ToolResult :=
  let c := searchIssues world dl jql (startAt.getD 0) (maxResults.getD 50)
  match c.result with
  | .error msg =>
      ⟨"Error: " ++ msg, c.requests,
        logAppend dl c.logs .error ("Error in jira_search: " ++ msg)⟩
  | .ok result =>
      match shapeSearch result with
      | .ok shaped => ⟨stringifySearch shaped, c.requests, c.logs⟩
      | .error msg =>
          ⟨"Error: " ++ msg, c.requests,
            logAppend dl c.logs .error ("Error in jira_search: " ++ msg)⟩

/-- The `jira_create_issue` tool handler (server.ts 99–127). -/
def jira_create_issue (world : Upstream) (dl : String)
    (projectKey issueType summary : String)
    (description assignee priority : Option String) : ToolResult :=
  let c := createIssue world dl projectKey issueType summary description assignee priority
  match c.result with
  | .ok issue => ⟨stringifySummary issue, c.requests, c.logs⟩
  | .error msg =>
      ⟨"Error: " ++ msg, c.requests,
        logAppend dl c.logs .error ("Error in jira_create_issue: " ++ msg)⟩

/-- The field filtering in the `jira_update_issue` handler (server.ts
142–145): entries for the four optional parameters in declaration order,
with `undefined` values dropped. -/
def filteredUpdateFields (summary description assignee priority : Option String) :
    List (String × JVal) :=
  [("summary", summary), ("description", description),
   ("assignee", assignee), ("priority", priority)].filterMap
    fun kv => kv.2.map fun v => (kv.1, JVal.str v)

/-- The `jira_update_issue` tool handler (server.ts 130–159): if no fields
survive filtering it returns the error text directly — before the client,
before any logging; otherwise it delegates to `updateIssue`. -/
def jira_update_issue (world : Upstream) (dl : String) (issueKey : String)
    (summary description assignee priority : Option String) : ToolResult :=
  let filteredFields := filteredUpdateFields summary description assignee priority
  if filteredFields.isEmpty then
    ⟨"Error: No fields provided to update", [], []⟩
  else
    let c := updateIssue world dl issueKey filteredFields
    match c.result with
    | .ok issue => ⟨stringifySummary issue, c.requests, c.logs⟩
    | .error msg =>
        ⟨"Error: " ++ msg, c.requests,
          logAppend dl c.logs .error ("Error in jira_update_issue: " ++ msg)⟩

/-- The `jira_transition_issue` tool handler (server.ts 162–180). -/
def jira_transition_issue (world : Upstream) (dl : String)
    (issueKey transitionId : String) (comment : Option String) : ToolResult :=
  let c := transitionIssue world dl issueKey transitionId comment
  match c.result with
  | .ok _ => ⟨"Successfully transitioned issue " ++ issueKey, c.requests, c.logs⟩
  | .error msg =>
      ⟨"Error: " ++ msg, c.requests,
        logAppend dl c.logs .error ("Error in jira_transition_issue: " ++ msg)⟩

/-- The `jira_add_comment` tool handler (server.ts 183–200). -/
def jira_add_comment (world : Upstream) (dl : String)
    (issueKey comment : String) : ToolResult :=
  let c := addComment world dl issueKey comment
  match c.result with
  | .ok _ => ⟨"Successfully added comment to issue " ++ issueKey, c.requests, c.logs⟩
  | .error msg =>
      ⟨"Error: " ++ msg, c.requests,
        logAppend dl c.logs .error ("Error in jira_add_comment: " ++ msg)⟩

/-- The configuration record built by `loadConfig` (types.ts).  `debug`
carries the `|| 'debug'` default applied in config.ts line 28. -/
structure Config where
  url : String
  token : String
  port : Option String
  debug : String

/-- JavaScript truthiness of an environment lookup: `undefined` and the
empty string are falsy. -/
def envTruthy : Option String → Bool
  | none => false
  | some s => s ≠ ""

/-- `loadConfig` (config.ts 4–38): reads the two required variables, throws
on a falsy value (logging the message at error level first), otherwise logs
success at info level and returns the config. -/
def loadConfig (dl : String) (env : String → Option String) :
    Except String Config × List (LogLevel × String) :=
  let jiraUrl := env "JIRA_MCP_URL"
  let jiraToken := env "JIRA_MCP_TOKEN"
  if envTruthy jiraUrl = false then
    (.error "JIRA_MCP_URL environment variable is required",
     logAppend dl [] .error "JIRA_MCP_URL environment variable is required")
  else if envTruthy jiraToken = false then
    (.error "JIRA_MCP_TOKEN environment variable is required",
     logAppend dl [] .error "JIRA_MCP_TOKEN environment variable is required")
  else
    (.ok { url := jiraUrl.getD "", token := jiraToken.getD ""
           port := env "JIRA_MCP_PORT"
           debug := (env "JIRA_MCP_DEBUG").getD "debug" },
     logAppend dl [] .info "Configuration loaded successfully")

/-- `validateRemoteConfig` (config.ts 40–46). -/
def validateRemoteConfig (dl : String) (config : Config) :
    Except String Unit × List (LogLevel × String) :=
  if envTruthy config.port = false then
    (.error "JIRA_MCP_PORT environment variable is required when using --remote flag",
     logAppend dl [] .error "JIRA_MCP_PORT environment variable is required when using --remote flag")
  else (.ok (), [])

/-- The logger's configured level: the `JIRA_MCP_DEBUG` variable when truthy,
else the constructor default `'debug'` (server.ts 16, logger.ts 7–11). -/
def loggerLevel (env : String → Option String) : String :=
  match env "JIRA_MCP_DEBUG" with
  | some s => if s ≠ "" then s else "debug"
  | none => "debug"

/-- The tools registered by server.ts, in registration order. -/
def registeredTools : List String :=
  ["jira_get_issue", "jira_search", "jira_create_issue", "jira_update_issue",
   "jira_transition_issue", "jira_add_comment", "get_mcp_ui"]

/-- Outcome of the server's top-level startup block (server.ts 18–238):
either the server came up with its tool set registered, or the top-level
catch fired — logging the failure, printing a `FATAL:` line to stderr and
exiting with status 1. -/
inductive StartupOutcome where
  | started : Config → List String → List (LogLevel × String) → StartupOutcome
  | exited : Nat → String → List (LogLevel × String) → StartupOutcome

/-- The server startup flow around `loadConfig` / `validateRemoteConfig`.
The UI server start and the transport start are I/O against external
collaborators and are not modelled; no tool is registered unless `loadConfig`
(and, with `--remote`, `validateRemoteConfig`) succeeded. -/
def runServer (env : String → Option String) (useRemote : Bool) : StartupOutcome :=
  let dl := loggerLevel env
  match loadConfig dl env with
  | (.error msg, logs) =>
      .exited 1 ("FATAL: " ++ msg)
        (logAppend dl logs .error ("Failed to start MCP server: " ++ msg))
  | (.ok config, logs) =>
      if useRemote then
        match validateRemoteConfig dl config with
        | (.error msg, logs2) =>
            .exited 1 ("FATAL: " ++ msg)
              (logAppend dl (logs ++ logs2) .error ("Failed to start MCP server: " ++ msg))
        | (.ok _, logs2) => .started config registeredTools (logs ++ logs2)
      else .started config registeredTools logs

/-- Exit code of a startup outcome, when the process exited. -/
def StartupOutcome.exitCode : StartupOutcome → Option Nat
  | .started _ _ _ => none
  | .exited code _ _ => some code

/-- The `FATAL:` line printed to stderr, when the process exited. -/
def StartupOutcome.fatal : StartupOutcome → Option String
  | .started _ _ _ => none
  | .exited _ msg _ => some msg

/-- The tools that got registered: none when startup aborted. -/
def StartupOutcome.tools : StartupOutcome → List String
  | .started _ tools _ => tools
  | .exited _ _ _ => []

def StartupOutcome.logs : StartupOutcome → List (LogLevel × String)
  | .started _ _ logs => logs
  | .exited _ _ logs => logs

/-- A well-formed upstream issue, following the wire shape the shaping code
reads (the `JiraIssue` interface of types.ts, restricted to the fields the
projection uses; `assignee`/`priority`/`reporter` may be absent on the wire). -/
structure JiraUser where
  displayName : String
deriving DecidableEq

structure JiraName where
  name : String
deriving DecidableEq

structure JiraIssueFields where
  summary : String
  status : JiraName
  assignee : Option JiraUser
  priority : Option JiraName
  reporter : Option JiraUser
deriving DecidableEq

structure JiraIssue where
  key : String
  fields : JiraIssueFields
deriving DecidableEq

/-- JSON encoding of a well-formed upstream issue; absent optional fields are
omitted from the object. -/
def encodeIssue (i : JiraIssue) : JVal :=
  .obj [("key", .str i.key),
        ("fields", .obj
          ([("summary", .str i.fields.summary),
            ("status", .obj [("name", .str i.fields.status.name)])]
          ++ (match i.fields.assignee with
              | some u => [("assignee", .obj [("displayName", .str u.displayName)])]
              | none => [])
          ++ (match i.fields.priority with
              | some p => [("priority", .obj [("name", .str p.name)])]
              | none => [])
          ++ (match i.fields.reporter with
              | some u => [("reporter", .obj [("displayName", .str u.displayName)])]
              | none => [])))]

/-- Sentinel defaulting as the `|| sentinel` expressions actually behave on a
string field: the sentinel when the field is absent or the empty string. -/
def sentinelOr (d : String) : Option String → String
  | some s => if s = "" then d else s
  | none => d

/-- The summary the projection produces on a well-formed upstream issue. -/
def expectedSummary (i : JiraIssue) : ShapedSummary :=
  { key := some (.str i.key)
    summary := some (.str i.fields.summary)
    status := some (.str i.fields.status.name)
    assignee := .str (sentinelOr "Unassigned" (i.fields.assignee.map (·.displayName)))
    priority := .str (sentinelOr "None" (i.fields.priority.map (·.name)))
    reporter := .str (sentinelOr "Unknown" (i.fields.reporter.map (·.displayName))) }

/-- The fields object the update PUT is expected to carry, per the spec's
payload description: exactly the supplied fields, `assignee`/`priority`
rewritten to `name` objects, `summary`/`description` passed through. -/
def expectedPutFields (summary description assignee priority : Option String) :
    List (String × JVal) :=
  (match summary with | some v => [("summary", JVal.str v)] | none => [])
  ++ (match description with | some v => [("description", JVal.str v)] | none => [])
  ++ (match assignee with | some v => [("assignee", JVal.obj [("name", .str v)])] | none => [])
  ++ (match priority with | some v => [("priority", JVal.obj [("name", .str v)])] | none => [])

/-- A world where every request fails at the network level. -/
def netFailWorld : Upstream := fun _ => .netFail "connection refused"

/-- A world where every request gets an HTTP 500 with body text `boom`. -/
def upstream500 : Upstream :=
  fun _ => .reply 500 "Internal Server Error" "boom" (.ok (.obj []))

/-- A world whose network failure message mimics the upstream-error format. -/
def netFailMimic : Upstream :=
  fun _ => .netFail "JIRA API error: 500 Internal Server Error - boom"

/-- A world where every request succeeds with an empty JSON object. -/
def okEmptyWorld : Upstream := fun _ => .reply 200 "OK" "\x7b\x7d" (.ok (.obj []))

/-- A world whose search replies carry a non-array `issues` property. -/
def badIssuesWorld : Upstream :=
  fun _ => .reply 200 "OK" "" (.ok (.obj [("issues", .str "nope")]))

/-- A fully-populated upstream issue. -/
def issueFull : JiraIssue :=
  ⟨"PROJ-1", ⟨"Fix login", ⟨"Open"⟩, some ⟨"Alice"⟩, some ⟨"High"⟩, some ⟨"Bob"⟩⟩⟩

/-- An upstream issue whose assignee is present with an empty display name. -/
def issueEmptyName : JiraIssue :=
  ⟨"PROJ-1", ⟨"Fix login", ⟨"Open"⟩, some ⟨""⟩, none, some ⟨"Bob"⟩⟩⟩

/-- A world where every request returns `issueFull`. -/
def issueWorld : Upstream := fun _ => .reply 200 "OK" "" (.ok (encodeIssue issueFull))

/-- A world where every request returns `issueEmptyName`. -/
def issueEmptyNameWorld : Upstream :=
  fun _ => .reply 200 "OK" "" (.ok (encodeIssue issueEmptyName))

/-- A world where the creation POST returns a key and the follow-up fetch
returns `issueFull`. -/
def createFlowWorld : Upstream := fun r =>
  if r.endpoint = "issue" then .reply 201 "Created" "" (.ok (.obj [("key", .str "PROJ-7")]))
  else .reply 200 "OK" "" (.ok (encodeIssue issueFull))

theorem levelIndex_le_three (s : String) : levelIndex s ≤ 3 := by
  unfold levelIndex
  repeat' split
  all_goals omega

/-- Error-level messages always pass the logger gate: their index 3 is maximal. -/
theorem shouldLog_error (dl : String) : shouldLog dl .error = true := by
  unfold shouldLog
  have h : levelIndex dl ≤ 3 := levelIndex_le_three dl
  have he : levelIndex (LogLevel.toStr .error) = 3 := rfl
  rw [he]
  exact decide_eq_true (by omega)

theorem logAppend_error (dl : String) (logs : List (LogLevel × String))
    (msg : String) : logAppend dl logs .error msg = logs ++ [(.error, msg)] := by
  simp [logAppend, shouldLog_error]

theorem makeRequest_requests (world : Upstream) (dl e m : String) (b : Option JVal) :
    (makeRequest world dl e m b).requests = [⟨e, m, b⟩] := by
  unfold makeRequest
  dsimp only
  rcases world ⟨e, m, b⟩ with cause | ⟨status, st, bt, parsed⟩
  · rfl
  · dsimp only
    split
    · rcases parsed with p | j <;> rfl
    · rfl

theorem makeRequest_ok (world : Upstream) (dl e m : String) (b : Option JVal)
    (status : Nat) (st bt : String) (j : JVal)
    (hw : world ⟨e, m, b⟩ = .reply status st bt (.ok j))
    (hok : statusOk status = true) :
    makeRequest world dl e m b =
      ⟨.ok j, [⟨e, m, b⟩],
        logAppend dl (logAppend dl [] .debug "Making JIRA API request")
          .debug "JIRA API response received"⟩ := by
  unfold makeRequest
  dsimp only
  rw [hw]
  simp [hok]

theorem makeRequest_netFail (world : Upstream) (dl e m : String) (b : Option JVal)
    (cause : String) (hw : world ⟨e, m, b⟩ = .netFail cause) :
    makeRequest world dl e m b =
      ⟨.error ("JIRA API request failed: " ++ cause), [⟨e, m, b⟩],
        logAppend dl (logAppend dl [] .debug "Making JIRA API request")
          .error ("JIRA API request failed: " ++ cause)⟩ := by
  unfold makeRequest
  dsimp only
  rw [hw]

theorem makeRequest_notOk (world : Upstream) (dl e m : String) (b : Option JVal)
    (status : Nat) (st bt : String) (parsed : Except String JVal)
    (hw : world ⟨e, m, b⟩ = .reply status st bt parsed)
    (hok : statusOk status = false) :
    makeRequest world dl e m b =
      ⟨.error ("JIRA API request failed: "
          ++ ("JIRA API error: " ++ toString status ++ " " ++ st ++ " - " ++ bt)),
        [⟨e, m, b⟩],
        logAppend dl (logAppend dl (logAppend dl [] .debug "Making JIRA API request")
            .error ("JIRA API error: " ++ toString status ++ " " ++ st ++ " - " ++ bt))
          .error ("JIRA API request failed: "
            ++ ("JIRA API error: " ++ toString status ++ " " ++ st ++ " - " ++ bt))⟩ := by
  unfold makeRequest
  dsimp only
  rw [hw]
  simp [hok]

theorem getIssue_requests (world : Upstream) (dl k : String) :
    (getIssue world dl k).requests = [⟨"issue/" ++ k, "GET", none⟩] := by
  unfold getIssue
  dsimp only
  have h := makeRequest_requests world dl ("issue/" ++ k) "GET" none
  rcases hr : (makeRequest world dl ("issue/" ++ k) "GET" none).result with msg | data
  · simp [hr, h]
  · dsimp only
    rcases h2 : jsGet data "fields" with _ | flds
    · simp [h2, h]
    · simp only [h2]
      rcases h3 : projectIssue data with m3 | s3 <;> simp [h3, h]

theorem jsOr_str (s d : String) :
    jsOr (some (.str s)) d = .str (if s = "" then d else s) := by
  unfold jsOr JVal.truthy
  by_cases h : s = "" <;> simp [h]

theorem jsOr_none (d : String) : jsOr none d = .str d := rfl

/-- On a well-formed encoded upstream issue, the shared shaping expressions
produce the six-field summary with the `||`-sentinels: a defaulted field is
the sentinel exactly when the upstream value is absent or empty. -/
theorem projectIssue_encode (i : JiraIssue) :
    projectIssue (encodeIssue i) = .ok (expectedSummary i) := by
  obtain ⟨key, summary, ⟨stName⟩, a, p, r⟩ := i
  rcases a with _ | ⟨da⟩ <;> rcases p with _ | ⟨np⟩ <;> rcases r with _ | ⟨dr⟩ <;>
    simp [projectIssue, encodeIssue, expectedSummary, jsGet, lookupField,
      sentinelOr, jsOr_str, jsOr_none]

theorem getIssue_ok (world : Upstream) (dl key : String) (status : Nat) (st bt : String)
    (i : JiraIssue) (hok : statusOk status = true)
    (hw : world ⟨"issue/" ++ key, "GET", none⟩ = .reply status st bt (.ok (encodeIssue i))) :
    (getIssue world dl key).result = .ok (expectedSummary i) := by
  unfold getIssue
  dsimp only
  rw [makeRequest_ok _ _ _ _ _ _ _ _ _ hw hok]
  dsimp only
  obtain ⟨flds, hf⟩ : ∃ flds, jsGet (encodeIssue i) "fields" = some flds := by
    simp [encodeIssue, jsGet, lookupField]
  rw [hf]
  dsimp only
  rw [projectIssue_encode i]

theorem mapProject_encode (is : List JiraIssue) :
    mapProject (is.map encodeIssue) = .ok (is.map expectedSummary) := by
  induction is with
  | nil => rfl
  | cons hd tl ih => simp [mapProject, projectIssue_encode, ih]

theorem shapeSearch_encode (t sa mx : JVal) (is : List JiraIssue) :
    shapeSearch (.obj [("total", t), ("startAt", sa), ("maxResults", mx),
      ("issues", .arr (is.map encodeIssue))]) =
    .ok ⟨some t, some sa, some mx, is.map expectedSummary⟩ := by
  unfold shapeSearch
  simp [jsGet, lookupField, mapProject_encode]

theorem jira_get_issue_err (world : Upstream) (dl key msg : String)
    (h : (getIssue world dl key).result = .error msg) :
    (jira_get_issue world dl key).text = "Error: " ++ msg ∧
    (LogLevel.error, "Error in jira_get_issue: " ++ msg) ∈ (jira_get_issue world dl key).logs := by
  unfold jira_get_issue
  dsimp only
  rw [h]
  dsimp only
  exact ⟨rfl, by rw [logAppend_error]; simp⟩

theorem jira_search_err (world : Upstream) (dl jql : String) (sa mx : Option Int)
    (msg : String)
    (h : (searchIssues world dl jql (sa.getD 0) (mx.getD 50)).result = .error msg) :
    (jira_search world dl jql sa mx).text = "Error: " ++ msg ∧
    (LogLevel.error, "Error in jira_search: " ++ msg) ∈ (jira_search world dl jql sa mx).logs := by
  unfold jira_search
  dsimp only
  rw [h]
  dsimp only
  exact ⟨rfl, by rw [logAppend_error]; simp⟩

theorem jira_search_shape_err (world : Upstream) (dl jql : String) (sa mx : Option Int)
    (res : JVal) (msg : String)
    (h1 : (searchIssues world dl jql (sa.getD 0) (mx.getD 50)).result = .ok res)
    (h2 : shapeSearch res = .error msg) :
    (jira_search world dl jql sa mx).text = "Error: " ++ msg ∧
    (LogLevel.error, "Error in jira_search: " ++ msg) ∈ (jira_search world dl jql sa mx).logs := by
  unfold jira_search
  dsimp only
  rw [h1]
  dsimp only
  rw [h2]
  dsimp only
  exact ⟨rfl, by rw [logAppend_error]; simp⟩

theorem jira_create_issue_err (world : Upstream) (dl pk it sm : String)
    (d a p : Option String) (msg : String)
    (h : (createIssue world dl pk it sm d a p).result = .error msg) :
    (jira_create_issue world dl pk it sm d a p).text = "Error: " ++ msg ∧
    (LogLevel.error, "Error in jira_create_issue: " ++ msg) ∈
      (jira_create_issue world dl pk it sm d a p).logs := by
  unfold jira_create_issue
  dsimp only
  rw [h]
  dsimp only
  exact ⟨rfl, by rw [logAppend_error]; simp⟩

theorem jira_update_issue_err (world : Upstream) (dl key : String)
    (s d a p : Option String) (msg : String)
    (hne : filteredUpdateFields s d a p ≠ [])
    (h : (updateIssue world dl key (filteredUpdateFields s d a p)).result = .error msg) :
    (jira_update_issue world dl key s d a p).text = "Error: " ++ msg ∧
    (LogLevel.error, "Error in jira_update_issue: " ++ msg) ∈
      (jira_update_issue world dl key s d a p).logs := by
  have hb : (filteredUpdateFields s d a p).isEmpty = false := by
    cases hfe : filteredUpdateFields s d a p <;> simp_all
  unfold jira_update_issue
  dsimp only
  simp only [hb, Bool.false_eq_true, if_false]
  rw [h]
  dsimp only
  exact ⟨rfl, by rw [logAppend_error]; simp⟩

theorem jira_transition_issue_err (world : Upstream) (dl key tid : String)
    (c : Option String) (msg : String)
    (h : (transitionIssue world dl key tid c).result = .error msg) :
    (jira_transition_issue world dl key tid c).text = "Error: " ++ msg ∧
    (LogLevel.error, "Error in jira_transition_issue: " ++ msg) ∈
      (jira_transition_issue world dl key tid c).logs := by
  unfold jira_transition_issue
  dsimp only
  rw [h]
  dsimp only
  exact ⟨rfl, by rw [logAppend_error]; simp⟩

theorem jira_add_comment_err (world : Upstream) (dl key cm : String) (msg : String)
    (h : (addComment world dl key cm).result = .error msg) :
    (jira_add_comment world dl key cm).text = "Error: " ++ msg ∧
    (LogLevel.error, "Error in jira_add_comment: " ++ msg) ∈
      (jira_add_comment world dl key cm).logs := by
  unfold jira_add_comment
  dsimp only
  rw [h]
  dsimp only
  exact ⟨rfl, by rw [logAppend_error]; simp⟩

theorem searchIssues_requests (world : Upstream) (dl jql : String) (sa mx : Int) :
    (searchIssues world dl jql sa mx).requests =
      [⟨searchEndpoint jql sa mx, "GET", none⟩] := by
  unfold searchIssues
  dsimp only
  have h := makeRequest_requests world dl (searchEndpoint jql sa mx) "GET" none
  rcases hr : (makeRequest world dl (searchEndpoint jql sa mx) "GET" none).result with m | res
  · simp [h]
  · dsimp only
    rcases h2 : jsGet res "issues" with _ | x <;> simp [h2, h]

theorem jira_search_requests (world : Upstream) (dl jql : String) (sa mx : Option Int) :
    (jira_search world dl jql sa mx).requests =
      (searchIssues world dl jql (sa.getD 0) (mx.getD 50)).requests := by
  unfold jira_search
  dsimp only
  rcases hr : (searchIssues world dl jql (sa.getD 0) (mx.getD 50)).result with m | res
  · simp
  · dsimp only
    rcases h2 : shapeSearch res with m2 | sh <;> simp [h2]

theorem updateIssue_requests_head (world : Upstream) (dl key : String)
    (fields : List (String × JVal)) :
    (updateIssue world dl key fields).requests.head? =
      some ⟨"issue/" ++ key, "PUT",
        some (.obj [("fields", .obj (transformUpdateFields fields))])⟩ := by
  unfold updateIssue
  dsimp only
  have h := makeRequest_requests world dl ("issue/" ++ key) "PUT"
    (some (.obj [("fields", .obj (transformUpdateFields fields))]))
  rcases hr : (makeRequest world dl ("issue/" ++ key) "PUT"
      (some (.obj [("fields", .obj (transformUpdateFields fields))]))).result with m | x
  · simp [h]
  · dsimp only
    rcases hf : (getIssue world dl key).result with fm | fs <;> simp [h]

theorem jira_update_issue_requests (world : Upstream) (dl key : String)
    (s d a p : Option String) (hb : (filteredUpdateFields s d a p).isEmpty = false) :
    (jira_update_issue world dl key s d a p).requests =
      (updateIssue world dl key (filteredUpdateFields s d a p)).requests := by
  unfold jira_update_issue
  dsimp only
  simp only [hb, Bool.false_eq_true, if_false]
  rcases hr : (updateIssue world dl key (filteredUpdateFields s d a p)).result with m | x <;>
    simp [hr]

theorem transitionIssue_requests (world : Upstream) (dl key tid : String)
    (c : Option String) :
    (transitionIssue world dl key tid c).requests =
      [⟨"issue/" ++ key ++ "/transitions", "POST", some (transitionBody tid c)⟩] := by
  unfold transitionIssue
  dsimp only
  have h := makeRequest_requests world dl ("issue/" ++ key ++ "/transitions") "POST"
    (some (transitionBody tid c))
  rcases hr : (makeRequest world dl ("issue/" ++ key ++ "/transitions") "POST"
      (some (transitionBody tid c))).result with m | x <;> simp [h]

theorem jira_transition_issue_requests (world : Upstream) (dl key tid : String)
    (c : Option String) :
    (jira_transition_issue world dl key tid c).requests =
      (transitionIssue world dl key tid c).requests := by
  unfold jira_transition_issue
  dsimp only
  rcases hr : (transitionIssue world dl key tid c).result with m | x <;> simp [hr]

theorem loadConfig_noUrl (dl : String) (env : String → Option String)
    (h : env "JIRA_MCP_URL" = none) :
    loadConfig dl env = (.error "JIRA_MCP_URL environment variable is required",
      logAppend dl [] .error "JIRA_MCP_URL environment variable is required") := by
  unfold loadConfig
  dsimp only
  rw [h]
  rfl

theorem loadConfig_noToken (dl : String) (env : String → Option String)
    (hu : envTruthy (env "JIRA_MCP_URL") = true) (h : env "JIRA_MCP_TOKEN" = none) :
    loadConfig dl env = (.error "JIRA_MCP_TOKEN environment variable is required",
      logAppend dl [] .error "JIRA_MCP_TOKEN environment variable is required") := by
  unfold loadConfig
  dsimp only
  rw [h, hu]
  rfl

/-- Claim C1, counterexample.  C1 states that every failure — explicitly
including validation errors — is returned as `Error: <message>` AND logged at
error level.  The empty-update validation failure refutes the logging half:
`jira_update_issue` with all four optional fields absent returns the error
text `Error: No fields provided to update` with an empty log trace, so no
error-level entry is recorded for this failure. -/
theorem C1_counterexample :
    jira_update_issue netFailWorld "debug" "PROJ-1" none none none none =
      ⟨"Error: No fields provided to update", [], []⟩ := rfl

/-- Claim C1, amended.  Every failure raised beneath a tool handler — an
error from the REST client, or an error thrown while shaping a search
result — is caught at the dispatch boundary, returned as the plain text
`Error: <message>`, and logged at error level as
`Error in <tool>: <message>`; this holds for all six tools.  The one
exception forced by the counterexample: the empty-update validation
short-circuit returns `Error: No fields provided to update` without writing
any log entry.  In the embedding every handler is a total function into
`ToolResult`, so no invocation propagates an unhandled fault. -/
theorem C1_error_paths :
    (∀ (world : Upstream) (dl key msg : String),
      (getIssue world dl key).result = .error msg →
      (jira_get_issue world dl key).text = "Error: " ++ msg ∧
      (LogLevel.error, "Error in jira_get_issue: " ++ msg) ∈ (jira_get_issue world dl key).logs) ∧
    (∀ (world : Upstream) (dl jql : String) (sa mx : Option Int) (msg : String),
      (searchIssues world dl jql (sa.getD 0) (mx.getD 50)).result = .error msg →
      (jira_search world dl jql sa mx).text = "Error: " ++ msg ∧
      (LogLevel.error, "Error in jira_search: " ++ msg) ∈ (jira_search world dl jql sa mx).logs) ∧
    (∀ (world : Upstream) (dl jql : String) (sa mx : Option Int) (res : JVal) (msg : String),
      (searchIssues world dl jql (sa.getD 0) (mx.getD 50)).result = .ok res →
      shapeSearch res = .error msg →
      (jira_search world dl jql sa mx).text = "Error: " ++ msg ∧
      (LogLevel.error, "Error in jira_search: " ++ msg) ∈ (jira_search world dl jql sa mx).logs) ∧
    (∀ (world : Upstream) (dl pk it sm : String) (d a p : Option String) (msg : String),
      (createIssue world dl pk it sm d a p).result = .error msg →
      (jira_create_issue world dl pk it sm d a p).text = "Error: " ++ msg ∧
      (LogLevel.error, "Error in jira_create_issue: " ++ msg) ∈
        (jira_create_issue world dl pk it sm d a p).logs) ∧
    (∀ (world : Upstream) (dl key : String) (s d a p : Option String) (msg : String),
      filteredUpdateFields s d a p ≠ [] →
      (updateIssue world dl key (filteredUpdateFields s d a p)).result = .error msg →
      (jira_update_issue world dl key s d a p).text = "Error: " ++ msg ∧
      (LogLevel.error, "Error in jira_update_issue: " ++ msg) ∈
        (jira_update_issue world dl key s d a p).logs) ∧
    (∀ (world : Upstream) (dl key tid : String) (c : Option String) (msg : String),
      (transitionIssue world dl key tid c).result = .error msg →
      (jira_transition_issue world dl key tid c).text = "Error: " ++ msg ∧
      (LogLevel.error, "Error in jira_transition_issue: " ++ msg) ∈
        (jira_transition_issue world dl key tid c).logs) ∧
    (∀ (world : Upstream) (dl key cm msg : String),
      (addComment world dl key cm).result = .error msg →
      (jira_add_comment world dl key cm).text = "Error: " ++ msg ∧
      (LogLevel.error, "Error in jira_add_comment: " ++ msg) ∈
        (jira_add_comment world dl key cm).logs) ∧
    (∀ (world : Upstream) (dl key : String),
      jira_update_issue world dl key none none none none =
        ⟨"Error: No fields provided to update", [], []⟩) :=
  ⟨jira_get_issue_err, jira_search_err, jira_search_shape_err, jira_create_issue_err,
   jira_update_issue_err, jira_transition_issue_err, jira_add_comment_err,
   fun _ _ _ => rfl⟩

/-- Claim C1, witness: each error-path implication of `C1_error_paths`
instantiated at a concrete failing world, with every hypothesis discharged
by evaluation. -/
theorem C1_error_paths_witness :
    ((getIssue netFailWorld "debug" "K-1").result =
      .error "JIRA API request failed: connection refused") ∧
    ((jira_get_issue netFailWorld "debug" "K-1").text =
      "Error: " ++ "JIRA API request failed: connection refused" ∧
     (LogLevel.error, "Error in jira_get_issue: " ++ "JIRA API request failed: connection refused") ∈
       (jira_get_issue netFailWorld "debug" "K-1").logs) ∧
    ((jira_search netFailWorld "debug" "q" none none).text =
      "Error: " ++ "JIRA API request failed: connection refused" ∧
     (LogLevel.error, "Error in jira_search: " ++ "JIRA API request failed: connection refused") ∈
       (jira_search netFailWorld "debug" "q" none none).logs) ∧
    ((jira_search badIssuesWorld "debug" "q" none none).text =
      "Error: " ++ "TypeError: result.issues.map is not a function" ∧
     (LogLevel.error, "Error in jira_search: " ++ "TypeError: result.issues.map is not a function") ∈
       (jira_search badIssuesWorld "debug" "q" none none).logs) ∧
    ((jira_create_issue netFailWorld "debug" "PROJ" "Bug" "t" none none none).text =
      "Error: " ++ "JIRA API request failed: connection refused" ∧
     (LogLevel.error, "Error in jira_create_issue: " ++ "JIRA API request failed: connection refused") ∈
       (jira_create_issue netFailWorld "debug" "PROJ" "Bug" "t" none none none).logs) ∧
    ((jira_update_issue netFailWorld "debug" "K-1" (some "x") none none none).text =
      "Error: " ++ "JIRA API request failed: connection refused" ∧
     (LogLevel.error, "Error in jira_update_issue: " ++ "JIRA API request failed: connection refused") ∈
       (jira_update_issue netFailWorld "debug" "K-1" (some "x") none none none).logs) ∧
    ((jira_transition_issue netFailWorld "debug" "K-1" "31" none).text =
      "Error: " ++ "JIRA API request failed: connection refused" ∧
     (LogLevel.error, "Error in jira_transition_issue: " ++ "JIRA API request failed: connection refused") ∈
       (jira_transition_issue netFailWorld "debug" "K-1" "31" none).logs) ∧
    ((jira_add_comment netFailWorld "debug" "K-1" "hi").text =
      "Error: " ++ "JIRA API request failed: connection refused" ∧
     (LogLevel.error, "Error in jira_add_comment: " ++ "JIRA API request failed: connection refused") ∈
       (jira_add_comment netFailWorld "debug" "K-1" "hi").logs) :=
  ⟨rfl,
   C1_error_paths.1 netFailWorld "debug" "K-1" _ rfl,
   C1_error_paths.2.1 netFailWorld "debug" "q" none none _ rfl,
   C1_error_paths.2.2.1 badIssuesWorld "debug" "q" none none
     (.obj [("issues", .str "nope")]) _ rfl rfl,
   C1_error_paths.2.2.2.1 netFailWorld "debug" "PROJ" "Bug" "t" none none none _ rfl,
   C1_error_paths.2.2.2.2.1 netFailWorld "debug" "K-1" (some "x") none none none _
     (by simp [filteredUpdateFields]) rfl,
   C1_error_paths.2.2.2.2.2.1 netFailWorld "debug" "K-1" "31" none _ rfl,
   C1_error_paths.2.2.2.2.2.2.1 netFailWorld "debug" "K-1" "hi" _ rfl⟩

/-- Claim C2: `jira_update_issue` with summary, description, assignee and
priority all absent returns the literal text
`Error: No fields provided to update`, issues zero HTTP requests, and does
so for every world — the short-circuit fires before the REST client is
invoked. -/
theorem C2_empty_update_short_circuit :
    ∀ (world : Upstream) (dl issueKey : String),
      jira_update_issue world dl issueKey none none none none =
        ⟨"Error: No fields provided to update", [], []⟩ :=
  fun _ _ _ => rfl

/-- Claim C3, counterexample.  C3 states the sentinel is used *exactly* when
the upstream field is absent, and the upstream value is used otherwise.  On
an upstream issue whose assignee is present with `displayName` equal to the
empty string, the `||` defaulting still produces `Unassigned` instead of the
present upstream value `""`. -/
theorem C3_counterexample :
    (getIssue issueEmptyNameWorld "debug" "PROJ-1").result =
      .ok ⟨some (.str "PROJ-1"), some (.str "Fix login"), some (.str "Open"),
           .str "Unassigned", .str "None", .str "Bob"⟩ ∧
    issueEmptyName.fields.assignee = some ⟨""⟩ := ⟨rfl, rfl⟩

/-- Claim C3, amended.  For every well-formed upstream issue, `getIssue`
(used by `jira_get_issue` and by the follow-up fetches of create/update) and
the `jira_search` shaping produce a summary whose six fields are all
defined, where assignee/priority/reporter are the sentinels `Unassigned` /
`None` / `Unknown` exactly when the corresponding upstream field is absent
*or the empty string* (the `||` operator tests truthiness, not presence),
and the upstream value otherwise — as captured by `expectedSummary`. -/
theorem C3_shaping :
    (∀ (world : Upstream) (dl key : String) (status : Nat) (st bt : String) (i : JiraIssue),
      statusOk status = true →
      world ⟨"issue/" ++ key, "GET", none⟩ = .reply status st bt (.ok (encodeIssue i)) →
      (getIssue world dl key).result = .ok (expectedSummary i)) ∧
    (∀ (t sa mx : JVal) (is : List JiraIssue),
      shapeSearch (.obj [("total", t), ("startAt", sa), ("maxResults", mx),
        ("issues", .arr (is.map encodeIssue))]) =
      .ok ⟨some t, some sa, some mx, is.map expectedSummary⟩) ∧
    (∀ i : JiraIssue, (expectedSummary i).key.isSome ∧ (expectedSummary i).summary.isSome ∧
      (expectedSummary i).status.isSome) :=
  ⟨fun world dl key status st bt i hok hw => getIssue_ok world dl key status st bt i hok hw,
   shapeSearch_encode,
   fun _ => ⟨rfl, rfl, rfl⟩⟩

/-- Claim C3, witness: `C3_shaping` applied to a fully-populated issue, with
the status/world hypotheses discharged by evaluation. -/
theorem C3_shaping_witness :
    statusOk 200 = true ∧
    (getIssue issueWorld "debug" "PROJ-1").result = .ok (expectedSummary issueFull) ∧
    shapeSearch (.obj [("total", .num 1), ("startAt", .num 0), ("maxResults", .num 50),
      ("issues", .arr ([issueFull].map encodeIssue))]) =
      .ok ⟨some (.num 1), some (.num 0), some (.num 50), [issueFull].map expectedSummary⟩ :=
  ⟨rfl,
   C3_shaping.1 issueWorld "debug" "PROJ-1" 200 "OK" "" issueFull rfl rfl,
   C3_shaping.2.1 (.num 1) (.num 0) (.num 50) [issueFull]⟩

/-- Claim C4: a `jira_search` call with `startAt` and `maxResults` omitted
issues exactly one upstream GET whose query string carries `startAt=0` and
`maxResults=50` — the zod defaults applied at the dispatcher boundary before
the client builds the URL. -/
theorem C4_search_defaults :
    ∀ (world : Upstream) (dl jql : String),
      (jira_search world dl jql none none).requests =
        [⟨"search?jql=" ++ encodeURIComponent jql ++ "&startAt=0&maxResults=50",
          "GET", none⟩] := by
  intro world dl jql
  have he : searchEndpoint jql 0 50 =
      "search?jql=" ++ encodeURIComponent jql ++ "&startAt=0&maxResults=50" := by
    unfold searchEndpoint
    simp only [String.append_assoc]
    congr 2
  rw [jira_search_requests]
  simp only [Option.getD_none]
  rw [searchIssues_requests, he]

/-- Claim C5, counterexample.  C5 states the upstream-status failure and the
network failure are distinct classifications distinguishable by the caller.
The code raises a single generic error in both cases, distinguished only by
its message text: an HTTP 500 with body `boom`, and a network failure whose
cause happens to read `JIRA API error: 500 Internal Server Error - boom`,
produce the identical error result, so the caller cannot tell them apart. -/
theorem C5_counterexample :
    (makeRequest upstream500 "debug" "issue/X" "GET" none).result =
      .error "JIRA API request failed: JIRA API error: 500 Internal Server Error - boom" ∧
    (makeRequest netFailMimic "debug" "issue/X" "GET" none).result =
      .error "JIRA API request failed: JIRA API error: 500 Internal Server Error - boom" :=
  ⟨rfl, rfl⟩

/-- Claim C5, amended.  A non-success HTTP status makes `makeRequest` raise
an error whose message embeds the status code, status text and raw body text
(`JIRA API request failed: JIRA API error: <status> <statusText> - <body>`),
logging both the inner and the rewrapped message at error level; a
network-level failure raises `JIRA API request failed: <cause>`, also logged
at error level.  Neither is swallowed — the error is the call's result.  The
two kinds are plain errors separated only by message text, not by distinct
classifications (see the counterexample). -/
theorem C5_classification :
    (∀ (world : Upstream) (dl e m : String) (b : Option JVal) (status : Nat)
       (st bt : String) (parsed : Except String JVal),
      world ⟨e, m, b⟩ = .reply status st bt parsed → statusOk status = false →
      (makeRequest world dl e m b).result =
        .error ("JIRA API request failed: "
          ++ ("JIRA API error: " ++ toString status ++ " " ++ st ++ " - " ++ bt)) ∧
      (LogLevel.error, "JIRA API error: " ++ toString status ++ " " ++ st ++ " - " ++ bt) ∈
        (makeRequest world dl e m b).logs ∧
      (LogLevel.error, "JIRA API request failed: "
          ++ ("JIRA API error: " ++ toString status ++ " " ++ st ++ " - " ++ bt)) ∈
        (makeRequest world dl e m b).logs) ∧
    (∀ (world : Upstream) (dl e m : String) (b : Option JVal) (cause : String),
      world ⟨e, m, b⟩ = .netFail cause →
      (makeRequest world dl e m b).result = .error ("JIRA API request failed: " ++ cause) ∧
      (LogLevel.error, "JIRA API request failed: " ++ cause) ∈ (makeRequest world dl e m b).logs) := by
  constructor
  · intro world dl e m b status st bt parsed hw hok
    rw [makeRequest_notOk world dl e m b status st bt parsed hw hok]
    refine ⟨rfl, ?_, ?_⟩ <;> simp [logAppend_error]
  · intro world dl e m b cause hw
    rw [makeRequest_netFail world dl e m b cause hw]
    exact ⟨rfl, by simp [logAppend_error]⟩

/-- Claim C5, witness: `C5_classification` applied to a concrete HTTP 500
world and a concrete network-failure world. -/
theorem C5_classification_witness :
    statusOk 500 = false ∧
    upstream500 ⟨"issue/X", "GET", none⟩ =
      .reply 500 "Internal Server Error" "boom" (.ok (.obj [])) ∧
    (makeRequest upstream500 "debug" "issue/X" "GET" none).result =
      .error ("JIRA API request failed: "
        ++ ("JIRA API error: " ++ toString 500 ++ " " ++ "Internal Server Error" ++ " - " ++ "boom")) ∧
    netFailWorld ⟨"issue/X", "GET", none⟩ = .netFail "connection refused" ∧
    (makeRequest netFailWorld "debug" "issue/X" "GET" none).result =
      .error ("JIRA API request failed: " ++ "connection refused") :=
  ⟨rfl, rfl,
   (C5_classification.1 upstream500 "debug" "issue/X" "GET" none 500
     "Internal Server Error" "boom" (.ok (.obj [])) rfl rfl).1,
   rfl,
   (C5_classification.2 netFailWorld "debug" "issue/X" "GET" none "connection refused" rfl).1⟩

/-- Claim C6: when the creation POST to `issue` fails, `createIssue` performs
no follow-up fetch — the trace is exactly the one POST and the error is the
result; when the POST succeeds returning a key, exactly one follow-up GET to
`issue/<key>` is performed and the follow-up's shaped summary (that is,
`getIssue`'s result on the returned key) is the result handed to the
caller. -/
theorem C6_create_flow :
    (∀ (world : Upstream) (dl pk it sm : String) (d a p : Option String) (msg : String),
      (makeRequest world dl "issue" "POST"
        (some (.obj [("fields", .obj (createFields pk it sm d a p))]))).result = .error msg →
      (createIssue world dl pk it sm d a p).requests =
        [⟨"issue", "POST", some (.obj [("fields", .obj (createFields pk it sm d a p))])⟩] ∧
      (createIssue world dl pk it sm d a p).result = .error msg) ∧
    (∀ (world : Upstream) (dl pk it sm : String) (d a p : Option String) (j : JVal) (k : String),
      (makeRequest world dl "issue" "POST"
        (some (.obj [("fields", .obj (createFields pk it sm d a p))]))).result = .ok j →
      jsGet j "key" = some (.str k) →
      (createIssue world dl pk it sm d a p).requests =
        [⟨"issue", "POST", some (.obj [("fields", .obj (createFields pk it sm d a p))])⟩,
         ⟨"issue/" ++ k, "GET", none⟩] ∧
      (createIssue world dl pk it sm d a p).result = (getIssue world dl k).result) := by
  constructor
  · intro world dl pk it sm d a p msg h
    unfold createIssue
    dsimp only
    rw [h]
    dsimp only
    exact ⟨by rw [makeRequest_requests], rfl⟩
  · intro world dl pk it sm d a p j k h1 h2
    unfold createIssue
    dsimp only
    rw [h1]
    dsimp only
    rw [h2]
    have hk : jsTemplate (some (.str k)) = k := rfl
    rw [hk]
    rcases hf : (getIssue world dl k).result with fm | fs <;>
      simp [makeRequest_requests, getIssue_requests, hf]

/-- Claim C6, witness: `C6_create_flow` applied to a failing creation world
(one POST, no follow-up) and to a world whose POST returns key `PROJ-7`
(exactly one follow-up GET on `issue/PROJ-7`). -/
theorem C6_create_flow_witness :
    ((makeRequest netFailWorld "debug" "issue" "POST"
        (some (.obj [("fields", .obj (createFields "PROJ" "Bug" "t" none none none))]))).result =
      .error "JIRA API request failed: connection refused") ∧
    ((createIssue netFailWorld "debug" "PROJ" "Bug" "t" none none none).requests =
        [⟨"issue", "POST", some (.obj [("fields", .obj (createFields "PROJ" "Bug" "t" none none none))])⟩] ∧
     (createIssue netFailWorld "debug" "PROJ" "Bug" "t" none none none).result =
        .error "JIRA API request failed: connection refused") ∧
    ((makeRequest createFlowWorld "debug" "issue" "POST"
        (some (.obj [("fields", .obj (createFields "PROJ" "Bug" "t" none none none))]))).result =
      .ok (.obj [("key", .str "PROJ-7")])) ∧
    jsGet (.obj [("key", .str "PROJ-7")]) "key" = some (.str "PROJ-7") ∧
    ((createIssue createFlowWorld "debug" "PROJ" "Bug" "t" none none none).requests =
        [⟨"issue", "POST", some (.obj [("fields", .obj (createFields "PROJ" "Bug" "t" none none none))])⟩,
         ⟨"issue/" ++ "PROJ-7", "GET", none⟩] ∧
     (createIssue createFlowWorld "debug" "PROJ" "Bug" "t" none none none).result =
        (getIssue createFlowWorld "debug" "PROJ-7").result) :=
  ⟨rfl,
   C6_create_flow.1 netFailWorld "debug" "PROJ" "Bug" "t" none none none _ rfl,
   rfl, rfl,
   C6_create_flow.2 createFlowWorld "debug" "PROJ" "Bug" "t" none none none
     (.obj [("key", .str "PROJ-7")]) "PROJ-7" rfl rfl⟩

/-- Claim C7: a `jira_update_issue` call with at least one supplied field
transmits a PUT to `issue/<key>` whose fields object contains exactly the
supplied fields — assignee and priority rewritten to `name` objects, summary
and description passed through — as captured by `expectedPutFields`. -/
theorem C7_update_payload :
    ∀ (world : Upstream) (dl key : String) (s d a p : Option String),
      (s ≠ none ∨ d ≠ none ∨ a ≠ none ∨ p ≠ none) →
      (jira_update_issue world dl key s d a p).requests.head? =
        some ⟨"issue/" ++ key, "PUT",
          some (.obj [("fields", .obj (expectedPutFields s d a p))])⟩ := by
  intro world dl key s d a p hne
  have htf : transformUpdateFields (filteredUpdateFields s d a p) =
      expectedPutFields s d a p := by
    rcases s <;> rcases d <;> rcases a <;> rcases p <;> rfl
  have hb : (filteredUpdateFields s d a p).isEmpty = false := by
    rcases s <;> rcases d <;> rcases a <;> rcases p <;>
      simp_all [filteredUpdateFields]
  rw [jira_update_issue_requests world dl key s d a p hb, updateIssue_requests_head, htf]

/-- Claim C7, witness: the spec's round-trip instance — summary `"x"`
supplied, assignee undefined — transmits a fields object containing only
`summary`. -/
theorem C7_update_payload_witness :
    ((some "x" : Option String) ≠ none ∨ (none : Option String) ≠ none ∨
     (none : Option String) ≠ none ∨ (none : Option String) ≠ none) ∧
    (jira_update_issue netFailWorld "debug" "PROJ-1" (some "x") none none none).requests.head? =
      some ⟨"issue/" ++ "PROJ-1", "PUT",
        some (.obj [("fields", .obj [("summary", .str "x")])])⟩ :=
  ⟨Or.inl (by simp),
   C7_update_payload netFailWorld "debug" "PROJ-1" (some "x") none none none
     (Or.inl (by simp))⟩

/-- Claim C8, counterexample.  C8 states that whenever a comment is supplied
the transition POST body carries the rich-text comment wrapper.  A supplied
empty-string comment refutes this: `if (comment)` tests truthiness, so the
transmitted body contains only `transition.id` and no `update` entry, while
the call still succeeds. -/
theorem C8_counterexample :
    (jira_transition_issue okEmptyWorld "debug" "PROJ-1" "31" (some "")).text =
      "Successfully transitioned issue PROJ-1" ∧
    (jira_transition_issue okEmptyWorld "debug" "PROJ-1" "31" (some "")).requests =
      [⟨"issue/PROJ-1/transitions", "POST",
        some (.obj [("transition", .obj [("id", .str "31")])])⟩] := ⟨rfl, rfl⟩

/-- Claim C8, amended.  The transition POST to `issue/<key>/transitions`
always carries `transition.id = transitionId`; when a *nonempty* comment is
supplied the body additionally carries `update.comment[0].add.body` as the
rich-text document wrapper (`richTextBody`) whose innermost text is the
comment verbatim; and on a successful POST the tool returns exactly
`Successfully transitioned issue <key>`. -/
theorem C8_transition :
    (∀ (world : Upstream) (dl key tid c : String), c ≠ "" →
      (jira_transition_issue world dl key tid (some c)).requests =
        [⟨"issue/" ++ key ++ "/transitions", "POST",
          some (.obj [("transition", .obj [("id", .str tid)]),
            ("update", .obj [("comment", .arr [ .obj [("add",
              .obj [("body", richTextBody c)])] ])])])⟩]) ∧
    (∀ (world : Upstream) (dl key tid : String) (c : Option String),
      (transitionIssue world dl key tid c).result = .ok () →
      (jira_transition_issue world dl key tid c).text =
        "Successfully transitioned issue " ++ key) := by
  constructor
  · intro world dl key tid c hc
    have hbody : transitionBody tid (some c) =
        .obj [("transition", .obj [("id", .str tid)]),
          ("update", .obj [("comment", .arr [ .obj [("add",
            .obj [("body", richTextBody c)])] ])])] := by
      simp [transitionBody, optTruthy, hc]
    rw [jira_transition_issue_requests, transitionIssue_requests, hbody]
  · intro world dl key tid c h
    unfold jira_transition_issue
    dsimp only
    rw [h]

/-- Claim C8, witness: the spec's end-to-end scenario
`transition_issue("PROJ-1", "31", "done")`. -/
theorem C8_transition_witness :
    ("done" : String) ≠ "" ∧
    (jira_transition_issue okEmptyWorld "debug" "PROJ-1" "31" (some "done")).requests =
      [⟨"issue/" ++ "PROJ-1" ++ "/transitions", "POST",
        some (.obj [("transition", .obj [("id", .str "31")]),
          ("update", .obj [("comment", .arr [ .obj [("add",
            .obj [("body", richTextBody "done")])] ])])])⟩] ∧
    (transitionIssue okEmptyWorld "debug" "PROJ-1" "31" (some "done")).result = .ok () ∧
    (jira_transition_issue okEmptyWorld "debug" "PROJ-1" "31" (some "done")).text =
      "Successfully transitioned issue " ++ "PROJ-1" :=
  ⟨by simp,
   C8_transition.1 okEmptyWorld "debug" "PROJ-1" "31" "done" (by simp),
   rfl,
   C8_transition.2 okEmptyWorld "debug" "PROJ-1" "31" (some "done") rfl⟩

/-- Claim C9: when `JIRA_MCP_URL` is missing from the environment — or
`JIRA_MCP_TOKEN` is missing while the URL is present — startup aborts before
any tool is registered: the missing-variable message is logged at error
level, a `FATAL:` line is emitted, and the process exits with status 1. -/
theorem C9_startup :
    (∀ (env : String → Option String) (useRemote : Bool),
      env "JIRA_MCP_URL" = none →
      (runServer env useRemote).exitCode = some 1 ∧
      (runServer env useRemote).fatal =
        some ("FATAL: " ++ "JIRA_MCP_URL environment variable is required") ∧
      (LogLevel.error, "JIRA_MCP_URL environment variable is required") ∈
        (runServer env useRemote).logs ∧
      (runServer env useRemote).tools = []) ∧
    (∀ (env : String → Option String) (useRemote : Bool),
      envTruthy (env "JIRA_MCP_URL") = true → env "JIRA_MCP_TOKEN" = none →
      (runServer env useRemote).exitCode = some 1 ∧
      (runServer env useRemote).fatal =
        some ("FATAL: " ++ "JIRA_MCP_TOKEN environment variable is required") ∧
      (LogLevel.error, "JIRA_MCP_TOKEN environment variable is required") ∈
        (runServer env useRemote).logs ∧
      (runServer env useRemote).tools = []) := by
  constructor
  · intro env r h
    unfold runServer
    dsimp only
    rw [loadConfig_noUrl (loggerLevel env) env h]
    dsimp only [StartupOutcome.exitCode, StartupOutcome.fatal, StartupOutcome.tools,
      StartupOutcome.logs]
    exact ⟨rfl, rfl, by simp [logAppend_error], rfl⟩
  · intro env r hu h
    unfold runServer
    dsimp only
    rw [loadConfig_noToken (loggerLevel env) env hu h]
    dsimp only [StartupOutcome.exitCode, StartupOutcome.fatal, StartupOutcome.tools,
      StartupOutcome.logs]
    exact ⟨rfl, rfl, by simp [logAppend_error], rfl⟩

/-- Claim C9, witness: `C9_startup` applied to an empty environment and to
an environment carrying only a URL. -/
theorem C9_startup_witness :
    ((fun _ => none : String → Option String) "JIRA_MCP_URL" = none) ∧
    ((runServer (fun _ => none) false).exitCode = some 1 ∧
     (runServer (fun _ => none) false).fatal =
       some ("FATAL: " ++ "JIRA_MCP_URL environment variable is required") ∧
     (LogLevel.error, "JIRA_MCP_URL environment variable is required") ∈
       (runServer (fun _ => none) false).logs ∧
     (runServer (fun _ => none) false).tools = []) ∧
    envTruthy ((fun k => if k = "JIRA_MCP_URL" then some "http://jira" else none)
      "JIRA_MCP_URL") = true ∧
    ((fun k => if k = "JIRA_MCP_URL" then some "http://jira" else none : String → Option String)
      "JIRA_MCP_TOKEN" = none) ∧
    ((runServer (fun k => if k = "JIRA_MCP_URL" then some "http://jira" else none) false).exitCode =
       some 1 ∧
     (runServer (fun k => if k = "JIRA_MCP_URL" then some "http://jira" else none) false).fatal =
       some ("FATAL: " ++ "JIRA_MCP_TOKEN environment variable is required") ∧
     (LogLevel.error, "JIRA_MCP_TOKEN environment variable is required") ∈
       (runServer (fun k => if k = "JIRA_MCP_URL" then some "http://jira" else none) false).logs ∧
     (runServer (fun k => if k = "JIRA_MCP_URL" then some "http://jira" else none) false).tools = []) :=
  ⟨rfl,
   C9_startup.1 (fun _ => none) false rfl,
   rfl, rfl,
   C9_startup.2 (fun k => if k = "JIRA_MCP_URL" then some "http://jira" else none) false rfl rfl⟩

/-- Claim C10: at the client layer an empty-string optional behaves exactly
like an absent one — `createIssue` with `""` for description, assignee or
priority, and `transitionIssue` with comment `""`, are equal as functions of
the world to the calls with the argument absent, so the empty-string
optional never appears in any transmitted body. -/
theorem C10_empty_string_optionals :
    (∀ (world : Upstream) (dl pk it sm : String) (a p : Option String),
      createIssue world dl pk it sm (some "") a p = createIssue world dl pk it sm none a p) ∧
    (∀ (world : Upstream) (dl pk it sm : String) (d p : Option String),
      createIssue world dl pk it sm d (some "") p = createIssue world dl pk it sm d none p) ∧
    (∀ (world : Upstream) (dl pk it sm : String) (d a : Option String),
      createIssue world dl pk it sm d a (some "") = createIssue world dl pk it sm d a none) ∧
    (∀ (world : Upstream) (dl key tid : String),
      transitionIssue world dl key tid (some "") = transitionIssue world dl key tid none) :=
  ⟨fun _ _ _ _ _ _ _ => rfl, fun _ _ _ _ _ _ _ => rfl, fun _ _ _ _ _ _ _ => rfl,
   fun _ _ _ _ => rfl⟩

end Jira
